import Mathlib

/-!
Verification of the AI-smart-glasses assistant modules.

Shallow embedding of the repository sources:
  navigation.py        -- obstacle records, NavigationAssistant, the guidance
                          heuristic and the free helper function
  voice_assistance.py  -- phrase table, mode matcher, VoiceAssistant
  object_detection.py  -- DetectedObject and the announcement logic
  reading_module.py    -- ReadingAssistant and its fallback behaviour
  main.py              -- the demo driver run_demo

Python strings are modelled at the character level (lists of characters)
because the relevant operations (lower, split, strip, substring test) are
defined character by character; Python true division of integers is modelled
exactly over the rationals.
-/

namespace SmartGlasses

/-! ## Character-level models of the Python string primitives -/

/-- Whitespace characters recognised by the Python methods split and strip
(ASCII range; the repository only ever uses ASCII text). -/
def pyIsSpace (c : Char) : Bool :=
  c = ' ' || c = '\t' || c = '\n' || c = '\r' || c = '\x0b' || c = '\x0c'

/-- Model of the Python method str.lower, character by character (ASCII). -/
def pyToLower (c : Char) : Char := Char.toLower c

/-- Model of the Python method str.split with no arguments: split on runs of
whitespace, discarding empty pieces. -/
def pyWords : List Char → List (List Char)
  | [] => []
  | c :: cs =>
    if pyIsSpace c then pyWords cs
    else
      match cs with
      | [] => [[c]]
      | d :: _ =>
        if pyIsSpace d then [c] :: pyWords cs
        else
          match pyWords cs with
          | [] => [[c]]
          | w :: ws => (c :: w) :: ws

/-- Model of the normalisation in VoiceAssistant.handle_transcript
(voice_assistance.py line 89): join with single spaces the words of the
lowercased transcript. -/
def normalizeTranscript (t : String) : String :=
  String.mk (List.intercalate [' '] (pyWords (t.toList.map pyToLower)))

/-- Model of the Python substring test (the operator in applied to strings):
the needle p occurs contiguously inside the haystack t. -/
def strContains (t p : String) : Bool :=
  t.toList.tails.any fun suffix => p.toList.isPrefixOf suffix

/-- Model of the Python method str.strip with no arguments: drop leading and
trailing whitespace. -/
def pyStrip (s : String) : String :=
  String.mk (((s.toList.dropWhile pyIsSpace).reverse.dropWhile pyIsSpace).reverse)

/-! ## navigation.py -/

/-- Obstacle record (navigation.py lines 16-22). The bbox sequence is laid
out as its four components, indexed 0..3 in the source; only indices 0 (left)
and 2 (right) are ever read. The confidence is carried but never used in any
decision, so its exact numeric type is immaterial; it is modelled as a
rational. -/
structure Obstacle where
  left : Int
  top : Int
  right : Int
  bottom : Int
  label : String
  confidence : ℚ
deriving DecidableEq

/-- Horizontal centre of an obstacle (navigation.py line 85):
center_x = (bbox[0] + bbox[2]) / 2 with Python true division, modelled
exactly over the rationals. -/
def center_x (ob : Obstacle) : ℚ := ((ob.left : ℚ) + ob.right) / 2

/-- State of a NavigationAssistant: the camera, detector and audio
collaborators are opaque protocols with no behaviour of their own, so only
the frame width is state (navigation.py line 69). -/
structure NavigationAssistant where
  frame_width : Int

/-- Checked construction of a NavigationAssistant (navigation.py lines
64-65): a non-positive frame width raises ValueError. -/
def NavigationAssistant.init (frame_width : Int) : Except String NavigationAssistant :=
  if frame_width ≤ 0 then Except.error "frame_width must be positive"
  else Except.ok { frame_width := frame_width }

/-- The guidance heuristic NavigationAssistant._compute_guidance
(navigation.py lines 78-95): empty list gives forward; otherwise count
obstacles whose centre is strictly left of the midline and steer away from
the denser side. -/
def NavigationAssistant.compute_guidance (a : NavigationAssistant)
    (obstacles : List Obstacle) : String :=
  if obstacles.isEmpty then "forward"
  else
    let counts := obstacles.foldl
      (fun acc obstacle =>
        if center_x obstacle < (a.frame_width : ℚ) / 2 then (acc.1 + 1, acc.2)
        else (acc.1, acc.2 + 1))
      ((0 : Nat), (0 : Nat))
    if counts.1 > counts.2 then "right"
    else if counts.2 > counts.1 then "left"
    else "forward"

/-- The free helper choose_direction_from_obstacles (navigation.py lines
98-120), which duplicates the heuristic behind its own frame-width guard. -/
def choose_direction_from_obstacles (obstacles : List Obstacle)
    (frame_width : Int) : Except String String :=
  if frame_width ≤ 0 then Except.error "frame_width must be positive"
  else if obstacles.isEmpty then Except.ok "forward"
  else
    let counts := obstacles.foldl
      (fun acc obstacle =>
        if center_x obstacle < (frame_width : ℚ) / 2 then (acc.1 + 1, acc.2)
        else (acc.1, acc.2 + 1))
      ((0 : Nat), (0 : Nat))
    Except.ok
      (if counts.1 > counts.2 then "right"
       else if counts.2 > counts.1 then "left"
       else "forward")

/-- Reference classifier written from the words of the spec (section 4.2):
an obstacle is left-side exactly when (left + right) / 2, with real-valued
division, is strictly less than frame_width / 2. -/
def spec_is_left_side (frame_width : Int) (ob : Obstacle) : Bool :=
  decide (((ob.left : ℚ) + ob.right) / 2 < (frame_width : ℚ) / 2)

/-- Reference direction written from the words of the spec (section 4.2):
forward on the empty sequence; otherwise right when the left-side count
exceeds the right-side count, left when the right-side count exceeds the
left-side count, forward on a tie. -/
def spec_direction (frame_width : Int) (obstacles : List Obstacle) : String :=
  if obstacles.isEmpty then "forward"
  else
    let left_count := obstacles.countP (spec_is_left_side frame_width)
    let right_count := obstacles.countP (fun ob => ! spec_is_left_side frame_width ob)
    if left_count > right_count then "right"
    else if right_count > left_count then "left"
    else "forward"

/-- Integer-comparison form of the left-side test, used to evaluate the
heuristic on concrete inputs. -/
def is_left_side_int (frame_width : Int) (ob : Obstacle) : Bool :=
  decide (ob.left + ob.right < frame_width)

/-- Integer-comparison form of the direction, used to evaluate the heuristic
on concrete inputs. -/
def guidance_int (frame_width : Int) (obstacles : List Obstacle) : String :=
  if obstacles.isEmpty then "forward"
  else
    let left_count := obstacles.countP (is_left_side_int frame_width)
    let right_count := obstacles.countP (fun ob => ! is_left_side_int frame_width ob)
    if left_count > right_count then "right"
    else if right_count > left_count then "left"
    else "forward"

lemma cast_add_half_lt_iff (l r w : Int) :
    ((l : ℚ) + r) / 2 < (w : ℚ) / 2 ↔ l + r < w := by
  rw [div_lt_div_iff_of_pos_right (by norm_num : (0 : ℚ) < 2)]
  exact_mod_cast Iff.rfl

lemma spec_is_left_side_eq_int (w : Int) (ob : Obstacle) :
    spec_is_left_side w ob = is_left_side_int w ob := by
  unfold spec_is_left_side is_left_side_int
  rw [decide_eq_decide]
  exact cast_add_half_lt_iff ob.left ob.right w

lemma foldl_pair_count (p : Obstacle → Prop) [DecidablePred p]
    (xs : List Obstacle) (a b : Nat) :
    xs.foldl (fun acc ob => if p ob then (acc.1 + 1, acc.2) else (acc.1, acc.2 + 1)) (a, b)
      = (a + xs.countP (fun ob => decide (p ob)),
         b + xs.countP (fun ob => ! decide (p ob))) := by
  induction xs generalizing a b with
  | nil => simp
  | cons x xs ih =>
    by_cases h : p x <;>
      simp [h, ih, List.countP_cons, Prod.ext_iff] <;> omega

lemma compute_guidance_eq_spec (a : NavigationAssistant) (obstacles : List Obstacle) :
    a.compute_guidance obstacles = spec_direction a.frame_width obstacles := by
  unfold NavigationAssistant.compute_guidance spec_direction
  by_cases hobs : obstacles.isEmpty
  · simp [hobs]
  · simp only [hobs, if_false, Bool.false_eq_true]
    rw [foldl_pair_count (fun ob => center_x ob < (a.frame_width : ℚ) / 2)]
    unfold spec_is_left_side center_x
    simp

lemma choose_direction_eq_spec (obstacles : List Obstacle) (frame_width : Int)
    (h : 0 < frame_width) :
    choose_direction_from_obstacles obstacles frame_width
      = Except.ok (spec_direction frame_width obstacles) := by
  unfold choose_direction_from_obstacles spec_direction
  rw [if_neg (by omega)]
  by_cases hobs : obstacles.isEmpty
  · simp [hobs]
  · simp only [hobs, if_false, Bool.false_eq_true]
    rw [foldl_pair_count (fun ob => center_x ob < ((frame_width : Int) : ℚ) / 2)]
    unfold spec_is_left_side center_x
    simp

lemma spec_direction_eq_int (frame_width : Int) (obstacles : List Obstacle) :
    spec_direction frame_width obstacles = guidance_int frame_width obstacles := by
  have hp : spec_is_left_side frame_width = is_left_side_int frame_width :=
    funext fun ob => spec_is_left_side_eq_int frame_width ob
  unfold spec_direction guidance_int
  simp only [hp]

/-- C1: for every obstacle list and every positive frame width, the guidance
computed by the assistant equals the reference definition taken from the
words of the spec: forward on the empty list, otherwise an obstacle is
left-side exactly when (left + right) / 2 with real-valued division is
strictly below frame_width / 2, and the result is right when the left-side
count exceeds the right-side count and left when the right-side count
exceeds the left-side count. -/
theorem guidance_matches_reference (a : NavigationAssistant)
    (obstacles : List Obstacle) (h : 0 < a.frame_width) :
    a.compute_guidance obstacles = spec_direction a.frame_width obstacles :=
  compute_guidance_eq_spec a obstacles

/-- Witness for C1 at frame width 320 and a single concrete obstacle. -/
theorem guidance_matches_reference_witness :
    (0 : Int) < 320
    ∧ NavigationAssistant.compute_guidance ⟨320⟩ [⟨20, 0, 80, 60, "chair", 91/100⟩]
        = spec_direction 320 [⟨20, 0, 80, 60, "chair", 91/100⟩] :=
  ⟨by decide, guidance_matches_reference ⟨320⟩ [⟨20, 0, 80, 60, "chair", 91/100⟩] (by decide)⟩

/-- C2 counterexample: a single obstacle whose centre sits exactly on the
midline is classified right-side, so the computed direction is left, not
forward as the claim states. -/
theorem centered_obstacle_not_forward :
    NavigationAssistant.compute_guidance ⟨320⟩ [⟨150, 0, 170, 40, "box", 1⟩] = "left"
    ∧ ((150 : ℚ) + 170) / 2 = (320 : ℚ) / 2
    ∧ ("left" : String) ≠ "forward" := by
  refine ⟨?_, by norm_num, by decide⟩
  rw [compute_guidance_eq_spec, spec_direction_eq_int]
  decide

/-- C2 amended: whenever the left-side and right-side counts are equal the
direction is forward; but a single obstacle whose centre equals exactly
frame_width / 2 is classified right-side, so the counts are 0 and 1 and the
direction is left, not forward. -/
theorem guidance_tie_behavior (a : NavigationAssistant) (h : 0 < a.frame_width) :
    (∀ obstacles : List Obstacle,
        obstacles.countP (spec_is_left_side a.frame_width)
          = obstacles.countP (fun ob => ! spec_is_left_side a.frame_width ob)
        → a.compute_guidance obstacles = "forward")
    ∧ (∀ ob : Obstacle,
        ((ob.left : ℚ) + ob.right) / 2 = (a.frame_width : ℚ) / 2
        → a.compute_guidance [ob] = "left") := by
  constructor
  · intro obstacles heq
    rw [compute_guidance_eq_spec]
    unfold spec_direction
    by_cases hobs : obstacles.isEmpty
    · simp [hobs]
    · simp [hobs, heq]
  · intro ob hmid
    have hnot : spec_is_left_side a.frame_width ob = false := by
      unfold spec_is_left_side
      simp [hmid]
    rw [compute_guidance_eq_spec]
    unfold spec_direction
    simp [List.countP_cons, hnot]

/-- Witness for C2 amended, exercising the tie branch on the empty list. -/
theorem guidance_tie_behavior_witness :
    (0 : Int) < 320
    ∧ NavigationAssistant.compute_guidance ⟨320⟩ [] = "forward" :=
  ⟨by decide, (guidance_tie_behavior ⟨320⟩ (by decide)).1 [] (by decide)⟩

/-- C4: for every obstacle list and positive frame width, the free function
returns exactly the direction computed by the stateful assistant. -/
theorem free_function_matches_assistant (obstacles : List Obstacle)
    (frame_width : Int) (h : 0 < frame_width) :
    choose_direction_from_obstacles obstacles frame_width
      = Except.ok (NavigationAssistant.compute_guidance ⟨frame_width⟩ obstacles) := by
  rw [choose_direction_eq_spec obstacles frame_width h,
    compute_guidance_eq_spec ⟨frame_width⟩ obstacles]

/-- Witness for C4 at a concrete obstacle list and frame width. -/
theorem free_function_matches_assistant_witness :
    (0 : Int) < 320
    ∧ choose_direction_from_obstacles [⟨200, 0, 260, 80, "desk", 87/100⟩] 320
        = Except.ok (NavigationAssistant.compute_guidance ⟨320⟩
            [⟨200, 0, 260, 80, "desk", 87/100⟩]) :=
  ⟨by decide, free_function_matches_assistant [⟨200, 0, 260, 80, "desk", 87/100⟩] 320 (by decide)⟩

/-- C5: every non-positive frame width is rejected with the invalid-argument
error by both the assistant constructor and the free function, the latter
for every obstacle list including the empty one. -/
theorem nonpositive_width_rejected (frame_width : Int) (h : frame_width ≤ 0) :
    NavigationAssistant.init frame_width = Except.error "frame_width must be positive"
    ∧ ∀ obstacles : List Obstacle,
        choose_direction_from_obstacles obstacles frame_width
          = Except.error "frame_width must be positive" := by
  constructor
  · unfold NavigationAssistant.init
    rw [if_pos h]
  · intro obstacles
    unfold choose_direction_from_obstacles
    rw [if_pos h]

/-- Witness for C5 at frame width 0 and the empty obstacle list. -/
theorem nonpositive_width_rejected_witness :
    (0 : Int) ≤ 0
    ∧ NavigationAssistant.init 0 = Except.error "frame_width must be positive"
    ∧ choose_direction_from_obstacles [] 0
        = Except.error "frame_width must be positive" :=
  ⟨by decide, (nonpositive_width_rejected 0 (by decide)).1,
    (nonpositive_width_rejected 0 (by decide)).2 []⟩

/-! ## voice_assistance.py -/

/-- The fixed mode set (voice_assistance.py line 14). -/
def MODES : List String := ["navigation", "object_detection", "reading"]

/-- The default phrase table of CommandConfig (voice_assistance.py lines
21-41), in source order. -/
def default_phrases_by_mode : List (String × List String) :=
  [("navigation",
      ["navigation mode", "switch to navigation", "navigation"]),
   ("object_detection",
      ["object detection mode", "switch to object detection", "object detection",
       "object mode"]),
   ("reading",
      ["reading mode", "switch to reading", "reading", "read mode"])]

/-- Scan of the phrase table performed by CommandConfig.__post_init__
(voice_assistance.py lines 43-46): the first mode key outside MODES, if
any. -/
def find_unsupported : List (String × List String) → Option String
  | [] => none
  | p :: rest => if p.1 ∈ MODES then find_unsupported rest else some p.1

lemma find_unsupported_eq_none {table : List (String × List String)}
    (h : find_unsupported table = none) : ∀ p ∈ table, p.1 ∈ MODES := by
  induction table with
  | nil => intro p hp; cases hp
  | cons q rest ih =>
    intro p hp
    unfold find_unsupported at h
    by_cases hq : q.1 ∈ MODES
    · rw [if_pos hq] at h
      rcases List.mem_cons.mp hp with rfl | hrest
      · exact hq
      · exact ih h p hrest
    · rw [if_neg hq] at h
      cases h

/-- A validated CommandConfig: the phrase table together with the invariant
that __post_init__ enforces at construction time. Values of this type only
exist for tables whose every key lies in MODES, exactly as Python dataclass
instances of CommandConfig only exist once __post_init__ has returned. -/
structure CommandConfig where
  phrases_by_mode : List (String × List String)
  valid_modes : ∀ p ∈ phrases_by_mode, p.1 ∈ MODES

/-- Checked construction of a CommandConfig (voice_assistance.py lines
43-46): raise ValueError at the first unsupported mode key. -/
def CommandConfig.init (table : List (String × List String)) :
    Except String CommandConfig :=
  match h : find_unsupported table with
  | some mode => Except.error ("Unsupported mode: " ++ mode)
  | none => Except.ok ⟨table, find_unsupported_eq_none h⟩

/-- The default CommandConfig (all keys are in MODES). -/
def default_command_config : CommandConfig :=
  ⟨default_phrases_by_mode, by decide⟩

/-- State of a VoiceAssistant (voice_assistance.py lines 76-78): its command
configuration and the mutable active mode. The transcriber collaborator is
opaque and is modelled at the call sites as the transcript string it
produces. -/
structure VoiceAssistant where
  command_config : CommandConfig
  active_mode : String

/-- Checked construction of a VoiceAssistant (voice_assistance.py lines
68-78): an initial mode outside MODES raises ValueError; a missing command
configuration is replaced by the default one. -/
def VoiceAssistant.init (command_config : Option CommandConfig)
    (initial_mode : String) : Except String VoiceAssistant :=
  if initial_mode ∈ MODES then
    Except.ok ⟨command_config.getD default_command_config, initial_mode⟩
  else Except.error ("Unsupported initial mode: " ++ initial_mode)

/-- The matcher VoiceAssistant._match_mode (voice_assistance.py lines
99-104): first mode in table order one of whose phrases occurs in the
transcript. -/
def VoiceAssistant.match_mode (va : VoiceAssistant) (transcript : String) :
    Option String :=
  va.command_config.phrases_by_mode.findSome? fun p =>
    if p.2.any (fun phrase => strContains transcript phrase) then some p.1 else none

/-- Result record ModeSwitchResult (voice_assistance.py lines 49-55). -/
structure ModeSwitchResult where
  transcript : String
  matched_command : Option String
  active_mode : String
deriving DecidableEq

/-- VoiceAssistant.handle_transcript (voice_assistance.py lines 88-97):
normalise, match, update the active mode on a match, and report. Returns
the updated assistant together with the result record. -/
def VoiceAssistant.handle_transcript (va : VoiceAssistant) (transcript : String) :
    VoiceAssistant × ModeSwitchResult :=
  let normalized := normalizeTranscript transcript
  let matched_mode := va.match_mode normalized
  let va2 :=
    match matched_mode with
    | some mode => { va with active_mode := mode }
    | none => va
  (va2,
   { transcript := transcript
     matched_command := matched_mode
     active_mode := va2.active_mode })

/-- VoiceAssistant.listen_and_handle (voice_assistance.py lines 84-86): pull
one transcript from the transcriber collaborator (modelled as a function
producing the transcript) and dispatch it to handle_transcript. -/
def VoiceAssistant.listen_and_handle (va : VoiceAssistant)
    (listen : Unit → String) : VoiceAssistant × ModeSwitchResult :=
  va.handle_transcript (listen ())

lemma findSome_match (norm : String) (table : List (String × List String))
    (entry : String × List String) (hmem : entry ∈ table)
    (hany : entry.2.any (fun phrase => strContains norm phrase) = true) :
    ∃ m, (table.findSome? fun p =>
            if p.2.any (fun phrase => strContains norm phrase) then some p.1 else none)
          = some m
      ∧ ∃ q ∈ table, q.1 = m
          ∧ q.2.any (fun phrase => strContains norm phrase) = true := by
  induction table with
  | nil => cases hmem
  | cons q rest ih =>
    by_cases hq : q.2.any (fun phrase => strContains norm phrase) = true
    · refine ⟨q.1, ?_, q, List.mem_cons_self q rest, rfl, hq⟩
      rw [List.findSome?_cons, if_pos hq]
    · have hmem2 : entry ∈ rest := by
        rcases List.mem_cons.mp hmem with rfl | h2
        · exact absurd hany hq
        · exact h2
      obtain ⟨m, hm, qq, hqq, hq1, hq2⟩ := ih hmem2
      refine ⟨m, ?_, qq, List.mem_cons_of_mem q hqq, hq1, hq2⟩
      rw [List.findSome?_cons, if_neg hq]
      exact hm

lemma findSome_mem (norm : String) (table : List (String × List String)) (m : String)
    (hm : (table.findSome? fun p =>
            if p.2.any (fun phrase => strContains norm phrase) then some p.1 else none)
          = some m) :
    ∃ p ∈ table, p.1 = m := by
  induction table with
  | nil => cases hm
  | cons q rest ih =>
    by_cases hq : q.2.any (fun phrase => strContains norm phrase) = true
    · rw [List.findSome?_cons, if_pos hq] at hm
      exact ⟨q, List.mem_cons_self q rest, (Option.some.injEq _ _ ▸ hm : q.1 = m)⟩
    · rw [List.findSome?_cons, if_neg hq] at hm
      obtain ⟨p, hp, hp1⟩ := ih hm
      exact ⟨p, List.mem_cons_of_mem q hp, hp1⟩

/-- C3 counterexample: in the normalised transcript of the text
"reading navigation" the configured phrase "reading" of mode reading occurs
as a substring, yet the matcher returns mode navigation (the first matching
mode in table order) and the active mode becomes navigation, not reading. -/
theorem match_returns_first_mode_cex :
    strContains (normalizeTranscript "reading navigation") "reading" = true
    ∧ ("reading", ["reading mode", "switch to reading", "reading", "read mode"])
        ∈ default_phrases_by_mode
    ∧ (VoiceAssistant.handle_transcript ⟨default_command_config, "object_detection"⟩
         "reading navigation").2.matched_command = some "navigation"
    ∧ (VoiceAssistant.handle_transcript ⟨default_command_config, "object_detection"⟩
         "reading navigation").1.active_mode = "navigation"
    ∧ ("navigation" : String) ≠ "reading" := by
  decide

/-- C3 amended: if a configured phrase occurs as a substring of the
normalised transcript, the matcher returns some mode, namely the key of the
first table entry with a matching phrase (which can differ from the mode of
the given phrase), and the active mode is updated to that returned mode. -/
theorem match_substring_selects_mode (va : VoiceAssistant)
    (t mode phrase : String) (phrases : List String)
    (hmem : (mode, phrases) ∈ va.command_config.phrases_by_mode)
    (hph : phrase ∈ phrases)
    (hsub : strContains (normalizeTranscript t) phrase = true) :
    ∃ m, va.match_mode (normalizeTranscript t) = some m
      ∧ (va.handle_transcript t).2.matched_command = some m
      ∧ (va.handle_transcript t).1.active_mode = m
      ∧ ∃ q ∈ va.command_config.phrases_by_mode, q.1 = m
          ∧ ∃ ph ∈ q.2, strContains (normalizeTranscript t) ph = true := by
  have hany : phrases.any (fun ph => strContains (normalizeTranscript t) ph) = true :=
    List.any_eq_true.mpr ⟨phrase, hph, hsub⟩
  obtain ⟨m, hm, q, hq, hq1, hq2⟩ :=
    findSome_match (normalizeTranscript t) va.command_config.phrases_by_mode
      (mode, phrases) hmem hany
  have hmm : va.match_mode (normalizeTranscript t) = some m := hm
  refine ⟨m, hmm, ?_, ?_, q, hq, hq1, List.any_eq_true.mp hq2⟩
  · simp [VoiceAssistant.handle_transcript, hmm]
  · simp [VoiceAssistant.handle_transcript, hmm]

/-- Witness for C3 amended at a concrete assistant and transcript. -/
theorem match_substring_selects_mode_witness :
    ∃ m, VoiceAssistant.match_mode ⟨default_command_config, "navigation"⟩
          (normalizeTranscript "please SWITCH to reading now") = some m
      ∧ (VoiceAssistant.handle_transcript ⟨default_command_config, "navigation"⟩
           "please SWITCH to reading now").2.matched_command = some m
      ∧ (VoiceAssistant.handle_transcript ⟨default_command_config, "navigation"⟩
           "please SWITCH to reading now").1.active_mode = m
      ∧ ∃ q ∈ (default_command_config : CommandConfig).phrases_by_mode, q.1 = m
          ∧ ∃ ph ∈ q.2,
              strContains (normalizeTranscript "please SWITCH to reading now") ph = true :=
  match_substring_selects_mode ⟨default_command_config, "navigation"⟩
    "please SWITCH to reading now" "reading" "switch to reading"
    ["reading mode", "switch to reading", "reading", "read mode"]
    (by decide) (by decide) (by decide)

/-- C6: a transcript whose normalisation contains no configured phrase of
any mode leaves the assistant unchanged and reports no matched command. -/
theorem no_match_preserves_mode (va : VoiceAssistant) (t : String)
    (h : ∀ p ∈ va.command_config.phrases_by_mode, ∀ phrase ∈ p.2,
        strContains (normalizeTranscript t) phrase = false) :
    (va.handle_transcript t).1 = va
    ∧ (va.handle_transcript t).2.matched_command = none := by
  have hnone : va.match_mode (normalizeTranscript t) = none := by
    unfold VoiceAssistant.match_mode
    rw [List.findSome?_eq_none_iff]
    intro p hp
    have : p.2.any (fun phrase => strContains (normalizeTranscript t) phrase) = false := by
      rw [List.any_eq_false]
      intro phrase hphrase
      simp [h p hp phrase hphrase]
    simp [this]
  constructor
  · simp [VoiceAssistant.handle_transcript, hnone]
  · simp [VoiceAssistant.handle_transcript, hnone]

/-- Witness for C6: the transcript hello there matches no default phrase. -/
theorem no_match_preserves_mode_witness :
    (VoiceAssistant.handle_transcript ⟨default_command_config, "navigation"⟩
       "hello there").1 = ⟨default_command_config, "navigation"⟩
    ∧ (VoiceAssistant.handle_transcript ⟨default_command_config, "navigation"⟩
         "hello there").2.matched_command = none :=
  no_match_preserves_mode ⟨default_command_config, "navigation"⟩ "hello there"
    (by decide)

/-- C8: a phrase table with a mode key outside the fixed set is rejected at
CommandConfig construction, and an initial mode outside the fixed set is
rejected at VoiceAssistant construction; both as invalid-argument errors
returned by the constructor itself. -/
theorem construction_rejects_invalid_modes
    (table : List (String × List String)) (mode : String) (phrases : List String)
    (hmem : (mode, phrases) ∈ table) (hbad : mode ∉ MODES)
    (cfg : Option CommandConfig) (initial_mode : String)
    (hinit : initial_mode ∉ MODES) :
    (∃ e, CommandConfig.init table = Except.error e)
    ∧ VoiceAssistant.init cfg initial_mode
        = Except.error ("Unsupported initial mode: " ++ initial_mode) := by
  constructor
  · have hfind : find_unsupported table ≠ none := by
      intro hnone
      exact hbad (find_unsupported_eq_none hnone (mode, phrases) hmem)
    unfold CommandConfig.init
    split
    · exact ⟨_, rfl⟩
    · next hnone => exact absurd hnone hfind
  · unfold VoiceAssistant.init
    rw [if_neg hinit]

/-- Witness for C8 at a concrete bad table and a concrete bad initial mode. -/
theorem construction_rejects_invalid_modes_witness :
    (("volume", ["loud"]) ∈ [("volume", ["loud"])]
        ∧ ("volume" : String) ∉ MODES ∧ ("idle" : String) ∉ MODES)
    ∧ (∃ e, CommandConfig.init [("volume", ["loud"])] = Except.error e)
    ∧ VoiceAssistant.init none "idle"
        = Except.error ("Unsupported initial mode: " ++ "idle") :=
  ⟨⟨by decide, by decide, by decide⟩,
    construction_rejects_invalid_modes [("volume", ["loud"])] "volume" ["loud"]
      (by decide) (by decide) none "idle" (by decide)⟩

/-! ## The active-mode invariant (claim C10) -/

/-- Repeated dispatch: fold handle_transcript over a list of transcripts,
keeping the assistant state. A listen_and_handle call is the same step with
the transcript produced by the transcriber, so sequences mixing both kinds
of call are covered by quantifying over the transcript list. -/
def run_transcripts (va : VoiceAssistant) (ts : List String) : VoiceAssistant :=
  ts.foldl (fun v t => (v.handle_transcript t).1) va

lemma handle_transcript_fst (va : VoiceAssistant) (t : String) :
    (va.handle_transcript t).1
      = (match va.match_mode (normalizeTranscript t) with
         | some mode => { va with active_mode := mode }
         | none => va) := rfl

lemma handle_transcript_modes (va : VoiceAssistant) (t : String)
    (h : va.active_mode ∈ MODES) :
    (va.handle_transcript t).1.active_mode ∈ MODES := by
  rw [handle_transcript_fst]
  cases hm : va.match_mode (normalizeTranscript t) with
  | none => exact h
  | some m =>
    obtain ⟨p, hp, hp1⟩ :=
      findSome_mem (normalizeTranscript t) va.command_config.phrases_by_mode m hm
    exact hp1 ▸ va.command_config.valid_modes p hp

lemma run_transcripts_modes (ts : List String) :
    ∀ va : VoiceAssistant, va.active_mode ∈ MODES
      → (run_transcripts va ts).active_mode ∈ MODES := by
  induction ts with
  | nil => intro va h; exact h
  | cons t rest ih =>
    intro va h
    exact ih ((va.handle_transcript t).1) (handle_transcript_modes va t h)

/-- C10: a successfully constructed assistant has its active mode in the
fixed set, and the active mode stays in the fixed set after any sequence of
handle_transcript calls and after any listen_and_handle call, because a
successful match can only assign a key of the validated phrase table. -/
theorem active_mode_invariant (cfg : Option CommandConfig) (initial_mode : String)
    (va : VoiceAssistant)
    (hva : VoiceAssistant.init cfg initial_mode = Except.ok va) :
    va.active_mode ∈ MODES
    ∧ (∀ ts : List String, (run_transcripts va ts).active_mode ∈ MODES)
    ∧ (∀ listen : Unit → String,
        (va.listen_and_handle listen).1.active_mode ∈ MODES) := by
  have hmode : va.active_mode ∈ MODES := by
    unfold VoiceAssistant.init at hva
    by_cases hinit : initial_mode ∈ MODES
    · rw [if_pos hinit] at hva
      cases hva
      exact hinit
    · rw [if_neg hinit] at hva
      cases hva
  refine ⟨hmode, fun ts => run_transcripts_modes ts va hmode, fun listen => ?_⟩
  exact handle_transcript_modes va (listen ()) hmode

/-- Witness for C10 at the default configuration and a concrete transcript
sequence. -/
theorem active_mode_invariant_witness :
    (VoiceAssistant.init none "reading"
        = Except.ok ⟨default_command_config, "reading"⟩)
    ∧ (⟨default_command_config, "reading"⟩ : VoiceAssistant).active_mode ∈ MODES
    ∧ (run_transcripts ⟨default_command_config, "reading"⟩
        ["switch to navigation", "hello"]).active_mode ∈ MODES :=
  have hva : VoiceAssistant.init none "reading"
      = Except.ok ⟨default_command_config, "reading"⟩ := rfl
  ⟨hva,
    (active_mode_invariant none "reading" ⟨default_command_config, "reading"⟩ hva).1,
    (active_mode_invariant none "reading" ⟨default_command_config, "reading"⟩ hva).2.1
      ["switch to navigation", "hello"]⟩

/-! ## reading_module.py and object_detection.py -/

/-- Result record ReadingResult (reading_module.py lines 40-44). -/
structure ReadingResult where
  text : String
deriving DecidableEq

/-- State of a ReadingAssistant: camera, OCR engine and audio are opaque
collaborators, so only the configured fallback message is state
(reading_module.py lines 50-60). A missing fallback is the Python value
None; the constructor default is the string no text detected. -/
structure ReadingAssistant where
  fallback_message : Option String

/-- ReadingAssistant.process_frame (reading_module.py lines 62-69), applied
to the text the OCR engine extracted from the frame: strip it, speak it when
non-empty, otherwise speak the fallback when that is truthy (not None and
non-empty, the Python truth test). Returns the list of spoken messages and
the ReadingResult. -/
def ReadingAssistant.process_frame (a : ReadingAssistant) (extracted : String) :
    List String × ReadingResult :=
  let text := pyStrip extracted
  if text ≠ "" then ([text], ⟨text⟩)
  else
    match a.fallback_message with
    | some fb => if fb ≠ "" then ([fb], ⟨text⟩) else ([], ⟨text⟩)
    | none => ([], ⟨text⟩)

/-- DetectedObject record (object_detection.py lines 19-25), with the bbox
laid out as four components as for Obstacle. -/
structure DetectedObject where
  label : String
  left : Int
  top : Int
  right : Int
  bottom : Int
  confidence : ℚ
deriving DecidableEq

/-- ObjectDetectionAssistant._announce (object_detection.py lines 78-83),
as the list of messages spoken for the detected objects: a fixed sentinel
when empty, otherwise each label in order. -/
def object_detection_announce (objects : List DetectedObject) : List String :=
  if objects.isEmpty then ["no objects detected"]
  else objects.map fun detected => detected.label

lemma dropWhile_eq_nil_of_all {l : List Char} (h : l.all pyIsSpace = true) :
    l.dropWhile pyIsSpace = [] := by
  induction l with
  | nil => rfl
  | cons c cs ih =>
    rw [List.all_cons, Bool.and_eq_true] at h
    simp [List.dropWhile_cons, h.1, ih h.2]

lemma pyStrip_of_all_space {s : String} (h : s.toList.all pyIsSpace = true) :
    pyStrip s = "" := by
  unfold pyStrip
  rw [dropWhile_eq_nil_of_all h]
  rfl

/-- C9: with a truthy configured fallback message, a whitespace-only
extracted text makes process_frame emit exactly the fallback message, and a
text with non-whitespace content makes it emit exactly the stripped text. -/
theorem reading_fallback_on_blank (fb : String) (hfb : fb ≠ "") (extracted : String) :
    (extracted.toList.all pyIsSpace = true →
      (ReadingAssistant.process_frame ⟨some fb⟩ extracted).1 = [fb])
    ∧ (pyStrip extracted ≠ "" →
        (ReadingAssistant.process_frame ⟨some fb⟩ extracted).1 = [pyStrip extracted]) := by
  constructor
  · intro hall
    have hstrip := pyStrip_of_all_space hall
    simp [ReadingAssistant.process_frame, hstrip, hfb]
  · intro hne
    simp [ReadingAssistant.process_frame, hne]

/-- Witness for C9 at the default fallback and a whitespace-only text. -/
theorem reading_fallback_on_blank_witness :
    ("no text detected" : String) ≠ ""
    ∧ "  \t ".toList.all pyIsSpace = true
    ∧ (ReadingAssistant.process_frame ⟨some "no text detected"⟩ "  \t ").1
        = ["no text detected"] :=
  ⟨by decide, by decide,
    (reading_fallback_on_blank "no text detected" (by decide) "  \t ").1 (by decide)⟩

/-! ## main.py -/

/-- The navigation demo fixture (main.py lines 52-55). -/
def demo_obstacles : List Obstacle :=
  [⟨20, 0, 80, 60, "chair", 91/100⟩, ⟨200, 0, 260, 80, "desk", 87/100⟩]

/-- The object-detection demo fixture (main.py lines 68-71). -/
def demo_objects : List DetectedObject :=
  [⟨"person", 10, 10, 100, 200, 95/100⟩, ⟨"book", 140, 40, 220, 120, 89/100⟩]

/-- Demo driver run_demo (main.py lines 85-105). The loop runs once per
scripted transcript and the scripted transcriber returns the transcripts in
order, so the loop is a fold over the transcript list; after each dispatch
exactly one assistant processes a frame according to the active mode.
Modelled from the spec: DummyAudioOutput and DummyObstacleDetector are
imported in main.py from a navigation_module file absent from the sources;
per spec section 6 the audio output records every emitted message in an
ordered log (the string list threaded through the fold) and the dummy
detector returns its fixed obstacle list for every frame. -/
def run_demo (transcripts : List String) : List String :=
  (transcripts.foldl
    (fun st t =>
      let va2 := ((st.1 : VoiceAssistant).handle_transcript t).1
      let emitted :=
        if va2.active_mode = "navigation" then
          [NavigationAssistant.compute_guidance ⟨320⟩ demo_obstacles]
        else if va2.active_mode = "object_detection" then
          object_detection_announce demo_objects
        else if va2.active_mode = "reading" then
          (ReadingAssistant.process_frame ⟨some "no text detected"⟩
            "Welcome to the campus library").1
        else []
      (va2, st.2 ++ emitted))
    ((⟨default_command_config, "navigation"⟩ : VoiceAssistant), ([] : List String))).2

/-- Variant of run_demo with the guidance computed through the
integer-comparison form, used only to evaluate the demo on concrete
inputs. -/
def run_demo_int (transcripts : List String) : List String :=
  (transcripts.foldl
    (fun st t =>
      let va2 := ((st.1 : VoiceAssistant).handle_transcript t).1
      let emitted :=
        if va2.active_mode = "navigation" then
          [guidance_int 320 demo_obstacles]
        else if va2.active_mode = "object_detection" then
          object_detection_announce demo_objects
        else if va2.active_mode = "reading" then
          (ReadingAssistant.process_frame ⟨some "no text detected"⟩
            "Welcome to the campus library").1
        else []
      (va2, st.2 ++ emitted))
    ((⟨default_command_config, "navigation"⟩ : VoiceAssistant), ([] : List String))).2

lemma run_demo_eq_int (transcripts : List String) :
    run_demo transcripts = run_demo_int transcripts := by
  have h320 : NavigationAssistant.compute_guidance ⟨320⟩ demo_obstacles
      = guidance_int 320 demo_obstacles := by
    rw [compute_guidance_eq_spec, spec_direction_eq_int]
  unfold run_demo run_demo_int
  rw [h320]

/-- C7 counterexample: on the scripted demo transcripts the audio log holds
four messages, not three as the claim states (the labels person and book
are two separate emissions next to the direction and the reading text). -/
theorem demo_log_not_three :
    (run_demo ["switch to navigation", "switch to object detection",
        "switch to reading"]).length ≠ 3 := by
  rw [run_demo_eq_int]
  decide

/-- C7 amended: the demo on the scripted transcripts produces an audio log
of exactly four messages: the direction forward, the labels person and book
as two separate emissions, and the reading text. -/
theorem demo_log_messages :
    run_demo ["switch to navigation", "switch to object detection",
        "switch to reading"]
      = ["forward", "person", "book", "Welcome to the campus library"] := by
  rw [run_demo_eq_int]
  decide
